import Mathlib

/-!
Verification development for the authentication and session-security
subsystem of Project SCARS (BENTO): the web client's token cache
(`AuthProvider`, `LocalStorage` keys) and the central server's
login/anomaly/token/MFA/session logic.  The web-client parts are embedded
directly from the TypeScript source; the central-server parts, whose
Python source is not in the repository snapshot, are modelled from the
specification (each such definition is marked `Modelled from the spec:`),
using the configuration constants that are present in the snapshot.
-/

/-! ## Client-side storage model (from the TypeScript source) -/

/-- Browser `localStorage`, modelled as an association list from string
keys to string values.  `getItem` returns the first binding. -/
def Storage := List (String × String)

/-- `localStorage.getItem(key)`: `some value` when the key is present,
`none` otherwise (TypeScript `null`). -/
def Storage.getItem (s : Storage) (key : String) : Option String :=
  match s with
  | [] => none
  | (k, v) :: rest => if k = key then some v else Storage.getItem rest key

/-- `localStorage.setItem(key, value)`: replaces any existing binding for
`key` with `value`, inserting when absent. -/
def Storage.setItem (s : Storage) (key value : String) : Storage :=
  match s with
  | [] => [(key, value)]
  | (k, v) :: rest =>
      if k = key then (key, value) :: rest
      else (k, v) :: Storage.setItem rest key value

/-- `localStorage.removeItem(key)`: removes every binding for `key`. -/
def Storage.removeItem (s : Storage) (key : String) : Storage :=
  match s with
  | [] => []
  | (k, v) :: rest =>
      if k = key then Storage.removeItem rest key
      else (k, v) :: Storage.removeItem rest key

/-- The `LocalStorage` key table of the web client:
`{ access_token: "at", refresh_token: "rt", user_data: "ud" }`. -/
def LocalStorage.access_token : String := "at"

/-- The `refresh_token` key of the web client's `LocalStorage` table. -/
def LocalStorage.refresh_token : String := "rt"

/-- The `user_data` key of the web client's `LocalStorage` table. -/
def LocalStorage.user_data : String := "ud"

/-! ## The web client's `AuthProvider` (from `WebClient/src/lib/types.ts`) -/

/-- The observable state of the `AuthProvider` React context: the
`isAuthenticated` flag together with the browser storage it reads and
writes. -/
structure AuthState where
  isAuthenticated : Bool
  storage : Storage

/-- The initializer of the `isAuthenticated` state:
`localStorage.getItem(LocalStorage.access_token) !== null`. -/
def AuthProvider.init (s : Storage) : AuthState :=
  { isAuthenticated := (Storage.getItem s LocalStorage.access_token).isSome
    storage := s }

/-- The `login` function of `AuthProvider`: stores the serialized access
token under the `access_token` key and sets `isAuthenticated` to true. -/
def AuthProvider.login (st : AuthState) (access_token : String) : AuthState :=
  { isAuthenticated := true
    storage := Storage.setItem st.storage LocalStorage.access_token access_token }

/-- The `logout` function of `AuthProvider`: sets `isAuthenticated` to
false, then removes the `access_token` and `user_data` keys. -/
def AuthProvider.logout (st : AuthState) : AuthState :=
  { isAuthenticated := false
    storage :=
      Storage.removeItem
        (Storage.removeItem st.storage LocalStorage.access_token)
        LocalStorage.user_data }

/-! ### Basic storage lemmas -/

theorem Storage.getItem_setItem_self (s : Storage) (key value : String) :
    Storage.getItem (Storage.setItem s key value) key = some value := by
  induction s with
  | nil => simp [Storage.setItem, Storage.getItem]
  | cons hd tl ih =>
      obtain ⟨k, v⟩ := hd
      by_cases h : k = key
      · simp [Storage.setItem, Storage.getItem, h]
      · simp [Storage.setItem, Storage.getItem, h, ih]

theorem Storage.getItem_removeItem_self (s : Storage) (key : String) :
    Storage.getItem (Storage.removeItem s key) key = none := by
  induction s with
  | nil => simp [Storage.removeItem, Storage.getItem]
  | cons hd tl ih =>
      obtain ⟨k, v⟩ := hd
      by_cases h : k = key
      · simp [Storage.removeItem, h, ih]
      · simp [Storage.removeItem, Storage.getItem, h, ih]

theorem Storage.getItem_removeItem_other (s : Storage) (key other : String)
    (hne : other ≠ key) :
    Storage.getItem (Storage.removeItem s key) other = Storage.getItem s other := by
  induction s with
  | nil => simp [Storage.removeItem]
  | cons hd tl ih =>
      obtain ⟨k, v⟩ := hd
      by_cases h : k = key
      · subst h
        have hko : k ≠ other := fun hco => hne hco.symm
        simp [Storage.removeItem, Storage.getItem, hko, ih]
      · by_cases hko : k = other
        · subst hko
          simp [Storage.removeItem, Storage.getItem, h]
        · simp [Storage.removeItem, Storage.getItem, h, hko, ih]

theorem Storage.getItem_setItem_other (s : Storage) (key value other : String)
    (hne : other ≠ key) :
    Storage.getItem (Storage.setItem s key value) other = Storage.getItem s other := by
  induction s with
  | nil =>
      have hko : key ≠ other := fun hco => hne hco.symm
      simp [Storage.setItem, Storage.getItem, hko]
  | cons hd tl ih =>
      obtain ⟨k, v⟩ := hd
      by_cases h : k = key
      · subst h
        have hko : k ≠ other := fun hco => hne hco.symm
        simp [Storage.setItem, Storage.getItem, hko]
      · by_cases hko : k = other
        · subst hko
          simp [Storage.setItem, Storage.getItem, h]
        · simp [Storage.setItem, Storage.getItem, h, hko, ih]

/-! ### C10: the AuthProvider's authentication-flag invariant -/

/-- C10: the web client's `AuthProvider` keeps `isAuthenticated` aligned
with the presence of the access-token entry: the initial state reads the
flag from the presence of the `access_token` key, `login` stores the
access token and sets the flag, and `logout` clears the flag and removes
the `access_token` and `user_data` keys. -/
theorem authProvider_isAuthenticated_invariant (s : Storage) (st : AuthState)
    (tok : String) :
    (AuthProvider.init s).isAuthenticated
        = (Storage.getItem s LocalStorage.access_token).isSome
    ∧ (AuthProvider.login st tok).isAuthenticated = true
    ∧ Storage.getItem (AuthProvider.login st tok).storage LocalStorage.access_token
        = some tok
    ∧ (AuthProvider.logout st).isAuthenticated = false
    ∧ Storage.getItem (AuthProvider.logout st).storage LocalStorage.access_token
        = none
    ∧ Storage.getItem (AuthProvider.logout st).storage LocalStorage.user_data
        = none := by
  refine ⟨rfl, rfl, ?_, rfl, ?_, ?_⟩
  · exact Storage.getItem_setItem_self st.storage LocalStorage.access_token tok
  · simp only [AuthProvider.logout]
    rw [Storage.getItem_removeItem_other _ LocalStorage.user_data
      LocalStorage.access_token (by decide)]
    exact Storage.getItem_removeItem_self st.storage LocalStorage.access_token
  · exact Storage.getItem_removeItem_self _ LocalStorage.user_data

/-! ### C5: what the client actually stores and clears -/

/-- A concrete browser storage holding all three entries of the
`LocalStorage` key table, as after a full login in a client that also
saved a refresh token and user data. -/
def storageWithAllEntries : Storage :=
  [(LocalStorage.access_token, "acc"),
   (LocalStorage.refresh_token, "ref"),
   (LocalStorage.user_data, "usr")]

/-- C5 counterexample: the `AuthProvider` does not manage the
refresh-token entry.  Starting from a storage holding access-token,
refresh-token and user-data entries, `logout` leaves the refresh-token
entry `"ref"` in place (the claim says all token entries are removed),
and `login` on an empty storage stores no refresh-token entry (the claim
says both tokens are persisted on login). -/
theorem authProvider_refresh_token_not_cleared_counterexample :
    Storage.getItem
        (AuthProvider.logout (AuthProvider.init storageWithAllEntries)).storage
        LocalStorage.refresh_token = some "ref"
    ∧ Storage.getItem
        (AuthProvider.login (AuthProvider.init []) "acc").storage
        LocalStorage.refresh_token = none := by
  exact ⟨rfl, rfl⟩

/-- C5 (amended): on login the `AuthProvider` persists only the access
token (under the `access_token` key); on logout it removes the
access-token and user-data entries; the refresh-token entry is left
untouched by both operations. -/
theorem authProvider_token_storage_amended (st : AuthState) (tok : String) :
    Storage.getItem (AuthProvider.login st tok).storage LocalStorage.access_token
        = some tok
    ∧ Storage.getItem (AuthProvider.login st tok).storage LocalStorage.refresh_token
        = Storage.getItem st.storage LocalStorage.refresh_token
    ∧ Storage.getItem (AuthProvider.logout st).storage LocalStorage.access_token
        = none
    ∧ Storage.getItem (AuthProvider.logout st).storage LocalStorage.user_data
        = none
    ∧ Storage.getItem (AuthProvider.logout st).storage LocalStorage.refresh_token
        = Storage.getItem st.storage LocalStorage.refresh_token := by
  refine ⟨?_, ?_, ?_, ?_, ?_⟩
  · exact Storage.getItem_setItem_self st.storage LocalStorage.access_token tok
  · exact Storage.getItem_setItem_other st.storage LocalStorage.access_token tok
      LocalStorage.refresh_token (by decide)
  · simp only [AuthProvider.logout]
    rw [Storage.getItem_removeItem_other _ LocalStorage.user_data
      LocalStorage.access_token (by decide)]
    exact Storage.getItem_removeItem_self st.storage LocalStorage.access_token
  · exact Storage.getItem_removeItem_self _ LocalStorage.user_data
  · simp only [AuthProvider.logout]
    rw [Storage.getItem_removeItem_other _ LocalStorage.user_data
      LocalStorage.refresh_token (by decide)]
    exact Storage.getItem_removeItem_other _ LocalStorage.access_token
      LocalStorage.refresh_token (by decide)

/-! ## Login Anomaly Tracker (central server) -/

/-- The per-identity record of consecutive failed login attempts: the
counter, the time and the source address of the last failure — the fields
that populate the unusual-login-activity notification template
(`failed_login_attempts`, `last_failed_login_time`, `last_failed_login_ip`). -/
structure LoginAttemptRecord where
  failCount : Nat
  lastFailTime : Nat
  lastFailIp : String
deriving DecidableEq

/-- Modelled from the spec: the configurable failed-login threshold of
the Login Anomaly Tracker, design default 5 (the central server's Python
source with this setting is not in the snapshot). -/
def defaultFailedLoginThreshold : Nat := 5

/-- Modelled from the spec: recording a failed login (the tracker update
of the central server's auth routes, not in the snapshot).  The counter
is incremented and the failure metadata updated; the anomaly notification
collaborator is invoked exactly when this failure crosses the threshold,
i.e. the previous count was below the threshold and the new count reaches
it.  Returns the updated record and whether the notification fired. -/
def recordFailedLogin (threshold : Nat) (r : LoginAttemptRecord)
    (time : Nat) (ip : String) : LoginAttemptRecord × Bool :=
  ({ failCount := r.failCount + 1, lastFailTime := time, lastFailIp := ip },
   decide (r.failCount < threshold) && decide (threshold ≤ r.failCount + 1))

/-- Modelled from the spec: a successful login resets the consecutive
failure counter to zero; the last-failure metadata persists. -/
def recordSuccessfulLogin (r : LoginAttemptRecord) : LoginAttemptRecord :=
  { r with failCount := 0 }

/-- Run a sequence of failed login attempts (each carrying a time and a
source address) through the tracker, returning the final record and the
total number of anomaly notifications sent. -/
def runFailedLogins (threshold : Nat) (r : LoginAttemptRecord)
    (attempts : List (Nat × String)) : LoginAttemptRecord × Nat :=
  match attempts with
  | [] => (r, 0)
  | (time, ip) :: rest =>
      ((runFailedLogins threshold (recordFailedLogin threshold r time ip).1 rest).1,
       (if (recordFailedLogin threshold r time ip).2 then 1 else 0)
         + (runFailedLogins threshold (recordFailedLogin threshold r time ip).1 rest).2)

theorem runFailedLogins_failCount (threshold : Nat) (r : LoginAttemptRecord)
    (attempts : List (Nat × String)) :
    (runFailedLogins threshold r attempts).1.failCount
      = r.failCount + attempts.length := by
  induction attempts generalizing r with
  | nil => simp [runFailedLogins]
  | cons hd tl ih =>
      obtain ⟨time, ip⟩ := hd
      simp only [runFailedLogins, List.length_cons]
      rw [ih]
      simp [recordFailedLogin]
      omega

theorem runFailedLogins_notifications (threshold : Nat) (r : LoginAttemptRecord)
    (attempts : List (Nat × String)) :
    (runFailedLogins threshold r attempts).2
      = (if r.failCount < threshold ∧ threshold ≤ r.failCount + attempts.length
         then 1 else 0) := by
  induction attempts generalizing r with
  | nil =>
      simp only [runFailedLogins, List.length_nil, Nat.add_zero]
      rw [if_neg (by omega)]
  | cons hd tl ih =>
      obtain ⟨time, ip⟩ := hd
      simp only [runFailedLogins, List.length_cons]
      rw [ih]
      simp only [recordFailedLogin, Bool.and_eq_true, decide_eq_true_eq]
      split_ifs <;> omega

/-- C1: over any run of consecutive failed logins that starts below the
threshold and reaches it, the anomaly notification collaborator fires
exactly once — at the crossing — and no further failure in the same run
(while the account stays locked and the counter is not reset) fires it
again. -/
theorem anomalyNotification_fires_once_per_crossing (threshold : Nat)
    (r : LoginAttemptRecord) (attempts : List (Nat × String))
    (hbelow : r.failCount < threshold)
    (hreach : threshold ≤ r.failCount + attempts.length) :
    (runFailedLogins threshold r attempts).2 = 1 := by
  rw [runFailedLogins_notifications]
  exact if_pos ⟨hbelow, hreach⟩

/-- C1 witness: a fresh record taken through six consecutive failures at
the default threshold 5: the notification fires exactly once (on the 5th
attempt), and the 6th failure adds none. -/
theorem anomalyNotification_fires_once_per_crossing_witness :
    (0 : Nat) < defaultFailedLoginThreshold
    ∧ defaultFailedLoginThreshold
        ≤ 0 + [(1, "a"), (2, "a"), (3, "a"), (4, "a"), (5, "a"), (6, "a")].length
    ∧ (runFailedLogins defaultFailedLoginThreshold
        { failCount := 0, lastFailTime := 0, lastFailIp := "" }
        [(1, "a"), (2, "a"), (3, "a"), (4, "a"), (5, "a"), (6, "a")]).2 = 1 :=
  ⟨by decide, by decide,
   anomalyNotification_fires_once_per_crossing defaultFailedLoginThreshold
     { failCount := 0, lastFailTime := 0, lastFailIp := "" }
     [(1, "a"), (2, "a"), (3, "a"), (4, "a"), (5, "a"), (6, "a")]
     (by decide) (by decide)⟩

/-- C2: a successful login resets the failure counter to 0 regardless of
its prior value, so the first failed attempt after it records a count of
exactly 1. -/
theorem successfulLogin_resets_failCount (threshold : Nat)
    (r : LoginAttemptRecord) (time : Nat) (ip : String) :
    (recordSuccessfulLogin r).failCount = 0
    ∧ (recordFailedLogin threshold (recordSuccessfulLogin r) time ip).1.failCount
        = 1 :=
  ⟨rfl, rfl⟩

/-! ## Token Issuer / Validator and Session Store (central server) -/

/-- Token validation errors of the spec's taxonomy. -/
inductive TokenError
  | Malformed
  | Expired
  | Revoked
deriving DecidableEq

/-- A short-lived signed access token: identity reference, issue time,
expiry time (minutes), and whether signature/structure verification of the
presented artifact succeeds. -/
structure AccessToken where
  identityId : Nat
  issuedAt : Nat
  expiresAt : Nat
  wellFormed : Bool
deriving DecidableEq

/-- A longer-lived refresh token, paired with a server-side session record
through `sessionId`. -/
structure RefreshToken where
  identityId : Nat
  issuedAt : Nat
  expiresAt : Nat
  sessionId : Nat
  wellFormed : Bool
deriving DecidableEq

/-- A Session Store record: a refresh-token identifier and its revocation
state. -/
structure SessionRecord where
  sessionId : Nat
  revoked : Bool
deriving DecidableEq

/-- From the `authentication` section of the central-server configuration
files in the snapshot: `access_token_expire_minutes: 30`. -/
def access_token_expire_minutes : Nat := 30

/-- From the `authentication` section of the central-server configuration
files in the snapshot: `refresh_token_expire_minutes: 10080` (7 days). -/
def refresh_token_expire_minutes : Nat := 10080

/-- Modelled from the spec: the Token Issuer mints an access token for a
verified identity at time `now` (in minutes), expiring after the
configured access-token lifetime. -/
def issueAccessToken (identityId now : Nat) : AccessToken :=
  { identityId := identityId, issuedAt := now,
    expiresAt := now + access_token_expire_minutes, wellFormed := true }

/-- Modelled from the spec: the Token Issuer mints a refresh token tied to
a session record, expiring after the configured refresh-token lifetime. -/
def issueRefreshToken (identityId now sessionId : Nat) : RefreshToken :=
  { identityId := identityId, issuedAt := now,
    expiresAt := now + refresh_token_expire_minutes,
    sessionId := sessionId, wellFormed := true }

/-- Modelled from the spec: the Token Validator on a presented access
token — `Malformed` when signature/structure verification fails,
`Expired` when past expiry, otherwise the embedded identity reference. -/
def validateAccessToken (now : Nat) (tok : AccessToken) :
    Except TokenError Nat :=
  if tok.wellFormed = false then Except.error TokenError.Malformed
  else if tok.expiresAt ≤ now then Except.error TokenError.Expired
  else Except.ok tok.identityId

/-- Look up the session record keyed by a refresh-token identifier. -/
def findSession (sessions : List SessionRecord) (sid : Nat) :
    Option SessionRecord :=
  sessions.find? (fun s => s.sessionId == sid)

/-- Modelled from the spec: the Token Validator on a presented refresh
token — `Malformed` when not well-formed, then the live Session Store
lookup: `Revoked` when the session is missing or revoked (revocation
takes precedence over the expiry check), then `Expired` when past expiry,
otherwise the embedded identity reference. -/
def validateRefreshToken (sessions : List SessionRecord) (now : Nat)
    (tok : RefreshToken) : Except TokenError Nat :=
  if tok.wellFormed = false then Except.error TokenError.Malformed
  else
    match findSession sessions tok.sessionId with
    | none => Except.error TokenError.Revoked
    | some s =>
        if s.revoked then Except.error TokenError.Revoked
        else if tok.expiresAt ≤ now then Except.error TokenError.Expired
        else Except.ok tok.identityId

/-- Modelled from the spec: logout marks the session record with the given
identifier revoked; absent or already-revoked records make it a no-op. -/
def revokeSession (sessions : List SessionRecord) (sid : Nat) :
    List SessionRecord :=
  sessions.map (fun s => if s.sessionId = sid then { s with revoked := true } else s)

/-- C3: a cryptographically well-formed refresh token whose session record
is revoked is rejected with `Revoked` at every validation time — in
particular before its expiry — so the revocation check takes precedence
over the expiry check. -/
theorem revokedSession_rejects_refreshToken (sessions : List SessionRecord)
    (now : Nat) (tok : RefreshToken) (s : SessionRecord)
    (hwf : tok.wellFormed = true)
    (hfind : findSession sessions tok.sessionId = some s)
    (hrev : s.revoked = true) :
    validateRefreshToken sessions now tok = Except.error TokenError.Revoked := by
  simp only [validateRefreshToken, hwf, hfind, hrev]
  simp

/-- C3 witness: a well-formed refresh token far from expiry whose session
is revoked is rejected as `Revoked`. -/
theorem revokedSession_rejects_refreshToken_witness :
    (issueRefreshToken 1 0 7).wellFormed = true
    ∧ findSession [{ sessionId := 7, revoked := true }]
        (issueRefreshToken 1 0 7).sessionId
        = some { sessionId := 7, revoked := true }
    ∧ (5 : Nat) < (issueRefreshToken 1 0 7).expiresAt
    ∧ validateRefreshToken [{ sessionId := 7, revoked := true }] 5
        (issueRefreshToken 1 0 7) = Except.error TokenError.Revoked :=
  ⟨rfl, rfl, by decide,
   revokedSession_rejects_refreshToken [{ sessionId := 7, revoked := true }] 5
     (issueRefreshToken 1 0 7) { sessionId := 7, revoked := true } rfl rfl rfl⟩

/-- C4: tokens are issued with the configured default lifetimes — 30
minutes for access tokens and 10080 minutes (7 days) for refresh tokens —
and an access token issued at time `t` is accepted at `t+29` minutes and
rejected as expired at `t+31` minutes. -/
theorem tokenLifetimes_and_expiry_boundaries (identityId t sessionId : Nat) :
    access_token_expire_minutes = 30
    ∧ refresh_token_expire_minutes = 10080
    ∧ (issueAccessToken identityId t).expiresAt = t + 30
    ∧ (issueRefreshToken identityId t sessionId).expiresAt = t + 10080
    ∧ validateAccessToken (t + 29) (issueAccessToken identityId t)
        = Except.ok identityId
    ∧ validateAccessToken (t + 31) (issueAccessToken identityId t)
        = Except.error TokenError.Expired := by
  refine ⟨rfl, rfl, rfl, rfl, ?_, ?_⟩
  · simp only [validateAccessToken, issueAccessToken, access_token_expire_minutes]
    rw [if_neg (by simp), if_neg (by omega)]
  · simp only [validateAccessToken, issueAccessToken, access_token_expire_minutes]
    rw [if_neg (by simp), if_pos (by omega)]

/-- C8: revoking a session is idempotent — revoking an already-revoked
session record is a no-op success, so applying logout twice to the same
session identifier equals applying it once. -/
theorem revokeSession_idempotent (sessions : List SessionRecord) (sid : Nat) :
    revokeSession (revokeSession sessions sid) sid
      = revokeSession sessions sid := by
  induction sessions with
  | nil => rfl
  | cons hd tl ih =>
      simp only [revokeSession, List.map_cons, List.map_map] at *
      by_cases h : hd.sessionId = sid
      · simp [h, ih]
      · simp [h, ih]

/-! ## Credential Verifier and login endpoint (central server) -/

/-- A central-server account record, restricted to the fields the auth
flows read: username, stored password hash, deactivation flag, and the
MFA state. -/
structure Identity where
  username : String
  passwordHash : String
  deactivated : Bool
  mfaEnabled : Bool
  mfaSecret : Option String
deriving DecidableEq

/-- Modelled from the spec: password hashing is delegated to a library
primitive; it is abstracted here as an injective tagging of the password,
standing in for the salted memory-hard hash. -/
def hashPassword (password : String) : String :=
  String.append "argon2$" password

/-- The Credential Verifier's internal outcomes (spec taxonomy). -/
inductive VerifierError
  | NotFound
  | Deactivated
  | InvalidCredentials
deriving DecidableEq

/-- Modelled from the spec: the Credential Verifier — look up the Identity
by case-sensitive exact username match, fail `NotFound` when absent,
`Deactivated` when the deactivation flag is set, `InvalidCredentials` on
password-hash mismatch, and return the Identity on match. -/
def verifyCredentials (users : List Identity) (username password : String) :
    Except VerifierError Identity :=
  match users.find? (fun u => u.username == username) with
  | none => Except.error VerifierError.NotFound
  | some u =>
      if u.deactivated then Except.error VerifierError.Deactivated
      else if u.passwordHash == hashPassword password then Except.ok u
      else Except.error VerifierError.InvalidCredentials

/-- The endpoint-level error taxonomy surfaced to callers. -/
inductive AuthError
  | InvalidCredentials
  | AccountDeactivated
  | MFARequired
  | MFAInvalidCode
deriving DecidableEq

/-- Modelled from the spec: the endpoint boundary collapses the verifier's
internal distinctions — `NotFound` and `InvalidCredentials` both surface
as `InvalidCredentials`, so callers cannot tell a missing account from a
wrong password; `Deactivated` surfaces as `AccountDeactivated`. -/
def surfaceVerifierError : VerifierError → AuthError
  | VerifierError.NotFound => AuthError.InvalidCredentials
  | VerifierError.InvalidCredentials => AuthError.InvalidCredentials
  | VerifierError.Deactivated => AuthError.AccountDeactivated

/-- Modelled from the spec: the login endpoint's observable outcome — the
verified identity on success, the collapsed error otherwise. -/
def loginEndpoint (users : List Identity) (username password : String) :
    Except AuthError Identity :=
  match verifyCredentials users username password with
  | Except.ok u => Except.ok u
  | Except.error e => Except.error (surfaceVerifierError e)

/-- C6: a login that fails because the username does not exist and a login
that fails because the password does not match produce the identical
`InvalidCredentials` response at the endpoint, so the two internal
outcomes are indistinguishable from the endpoint's output. -/
theorem loginEndpoint_no_account_enumeration (users : List Identity)
    (u1 p1 u2 p2 : String)
    (hnf : verifyCredentials users u1 p1 = Except.error VerifierError.NotFound)
    (hwp : verifyCredentials users u2 p2
        = Except.error VerifierError.InvalidCredentials) :
    loginEndpoint users u1 p1 = Except.error AuthError.InvalidCredentials
    ∧ loginEndpoint users u2 p2 = Except.error AuthError.InvalidCredentials
    ∧ loginEndpoint users u1 p1 = loginEndpoint users u2 p2 := by
  refine ⟨?_, ?_, ?_⟩
  · simp [loginEndpoint, hnf, surfaceVerifierError]
  · simp [loginEndpoint, hwp, surfaceVerifierError]
  · simp [loginEndpoint, hnf, hwp, surfaceVerifierError]

/-- A one-account user table used to instantiate the endpoint theorems. -/
def demoUsers : List Identity :=
  [{ username := "alice", passwordHash := hashPassword "correct-horse",
     deactivated := false, mfaEnabled := false, mfaSecret := none }]

/-- C6 witness: against a table holding only `alice`, a login as the
unknown `bob` and a login as `alice` with a wrong password surface the
same `InvalidCredentials` response. -/
theorem loginEndpoint_no_account_enumeration_witness :
    verifyCredentials demoUsers "bob" "correct-horse"
        = Except.error VerifierError.NotFound
    ∧ verifyCredentials demoUsers "alice" "wrong-pw"
        = Except.error VerifierError.InvalidCredentials
    ∧ loginEndpoint demoUsers "bob" "correct-horse"
        = Except.error AuthError.InvalidCredentials
    ∧ loginEndpoint demoUsers "alice" "wrong-pw"
        = Except.error AuthError.InvalidCredentials
    ∧ loginEndpoint demoUsers "bob" "correct-horse"
        = loginEndpoint demoUsers "alice" "wrong-pw" := by
  have h := loginEndpoint_no_account_enumeration demoUsers "bob" "correct-horse"
    "alice" "wrong-pw" rfl rfl
  exact ⟨rfl, rfl, h.1, h.2.1, h.2.2⟩

/-! ## MFA Gate (central server) -/

/-- Modelled from the spec: the time-based one-time code derived from the
shared secret at a 30-second time step; the underlying one-time-password
construction is abstracted as an arithmetic digest of secret and step. -/
def totpCode (secret : String) (step : Nat) : Nat :=
  (secret.length * 131 + step * 17 + 11) % 1000000

/-- Modelled from the spec: MFA code validation with a drift window
tolerant of ±1 time step. -/
def verifyMfaCode (secret : String) (currentStep code : Nat) : Bool :=
  (code == totpCode secret currentStep)
  || (code == totpCode secret (currentStep - 1))
  || (code == totpCode secret (currentStep + 1))

/-- Re-verification material supplied to the disable-MFA endpoint: the
account password or a current one-time code. -/
inductive Reverification
  | byPassword (password : String)
  | byCode (code : Nat)

/-- Modelled from the spec: whether the supplied re-verification is valid
for the account — a password whose hash matches, or a code accepted by
the drift window against the account's MFA secret. -/
def validReverification (u : Identity) (currentStep : Nat) :
    Reverification → Bool
  | Reverification.byPassword p => u.passwordHash == hashPassword p
  | Reverification.byCode c =>
      match u.mfaSecret with
      | none => false
      | some s => verifyMfaCode s currentStep c

/-- Modelled from the spec: the disable-MFA operation — on valid
re-verification the secret is destroyed and the flag cleared; otherwise
the request fails and the account is unchanged.  Returns the resulting
account state and the error, if any. -/
def disableMfa (u : Identity) (currentStep : Nat) (rv : Reverification) :
    Identity × Option AuthError :=
  match rv with
  | Reverification.byPassword p =>
      if u.passwordHash == hashPassword p then
        ({ u with mfaEnabled := false, mfaSecret := none }, none)
      else (u, some AuthError.InvalidCredentials)
  | Reverification.byCode c =>
      match u.mfaSecret with
      | none => (u, some AuthError.MFAInvalidCode)
      | some s =>
          if verifyMfaCode s currentStep c then
            ({ u with mfaEnabled := false, mfaSecret := none }, none)
          else (u, some AuthError.MFAInvalidCode)

/-- C7: a disable-MFA request on an MFA-enabled account that does not
supply valid re-verification fails with an error, and the account — in
particular its `MFASecret` — is unchanged and still present. -/
theorem disableMfa_invalid_reverification_keeps_secret (u : Identity)
    (currentStep : Nat) (rv : Reverification) (s : String)
    (_hmfa : u.mfaEnabled = true)
    (hsec : u.mfaSecret = some s)
    (hinv : validReverification u currentStep rv = false) :
    (disableMfa u currentStep rv).2.isSome = true
    ∧ (disableMfa u currentStep rv).1 = u
    ∧ (disableMfa u currentStep rv).1.mfaSecret = some s := by
  cases rv with
  | byPassword p =>
      simp only [validReverification] at hinv
      simp [disableMfa, hinv, hsec]
  | byCode c =>
      simp only [validReverification, hsec] at hinv
      simp [disableMfa, hsec, hinv]

/-- C7 witness: an MFA-enabled account with secret `"s3cr3t"` refuses a
disable request carrying a wrong password and keeps its secret. -/
theorem disableMfa_invalid_reverification_keeps_secret_witness :
    ({ username := "alice", passwordHash := hashPassword "correct-horse",
       deactivated := false, mfaEnabled := true,
       mfaSecret := some "s3cr3t" } : Identity).mfaEnabled = true
    ∧ (disableMfa
        { username := "alice", passwordHash := hashPassword "correct-horse",
          deactivated := false, mfaEnabled := true, mfaSecret := some "s3cr3t" }
        42 (Reverification.byPassword "wrong-pw")).2.isSome = true
    ∧ (disableMfa
        { username := "alice", passwordHash := hashPassword "correct-horse",
          deactivated := false, mfaEnabled := true, mfaSecret := some "s3cr3t" }
        42 (Reverification.byPassword "wrong-pw")).1.mfaSecret
        = some "s3cr3t" := by
  have h := disableMfa_invalid_reverification_keeps_secret
    { username := "alice", passwordHash := hashPassword "correct-horse",
      deactivated := false, mfaEnabled := true, mfaSecret := some "s3cr3t" }
    42 (Reverification.byPassword "wrong-pw") "s3cr3t" rfl rfl (by decide)
  exact ⟨rfl, h.1, h.2.2⟩

/-! ## Client refresh de-duplication (web client) -/

/-- Modelled from the spec: the client's shared pending-refresh handle —
either no refresh is in flight, or one is and its result (the new access
token) is what every waiter observes.  `networkCalls` counts refresh
requests actually sent to the server. -/
structure RefreshCoalescer where
  pendingResult : Option String
  networkCalls : Nat
deriving DecidableEq

/-- Modelled from the spec: one caller observing an expired access token.
When a refresh is already in flight the caller awaits the shared handle
and observes its result; otherwise it sends one network refresh (whose
result is `freshToken`) and registers the shared handle for late
callers. -/
def triggerRefresh (freshToken : String) (st : RefreshCoalescer) :
    RefreshCoalescer × String :=
  match st.pendingResult with
  | some tok => (st, tok)
  | none =>
      ({ pendingResult := some freshToken,
         networkCalls := st.networkCalls + 1 }, freshToken)

/-- Run `n` refresh triggers arriving within the in-flight window of the
first, collecting every caller's observed token. -/
def runRefreshTriggers (freshToken : String) (st : RefreshCoalescer) :
    Nat → RefreshCoalescer × List String
  | 0 => (st, [])
  | n + 1 =>
      ((runRefreshTriggers freshToken (triggerRefresh freshToken st).1 n).1,
       (triggerRefresh freshToken st).2
         :: (runRefreshTriggers freshToken (triggerRefresh freshToken st).1 n).2)

/-- The idle client state: no refresh in flight, no network call made. -/
def idleRefreshState : RefreshCoalescer :=
  { pendingResult := none, networkCalls := 0 }

theorem runRefreshTriggers_pending (freshToken tok : String) (calls : Nat)
    (n : Nat) :
    runRefreshTriggers freshToken
        { pendingResult := some tok, networkCalls := calls } n
      = ({ pendingResult := some tok, networkCalls := calls },
         List.replicate n tok) := by
  induction n with
  | zero => rfl
  | succ m ih =>
      simp only [runRefreshTriggers, triggerRefresh, ih, List.replicate]

/-- C9: `n ≥ 1` simultaneous refresh triggers from the idle
expired-access-token state produce exactly one network refresh call, and
every one of the `n` callers observes the same resulting token. -/
theorem refresh_deduplicated_under_concurrency (freshToken : String) (n : Nat)
    (hn : 1 ≤ n) :
    (runRefreshTriggers freshToken idleRefreshState n).1.networkCalls = 1
    ∧ (runRefreshTriggers freshToken idleRefreshState n).2
        = List.replicate n freshToken := by
  obtain ⟨m, rfl⟩ : ∃ m, n = m + 1 := ⟨n - 1, by omega⟩
  simp only [runRefreshTriggers, triggerRefresh, idleRefreshState]
  rw [runRefreshTriggers_pending]
  simp [List.replicate]

/-- C9 witness: three simultaneous triggers make one network call and all
three callers observe the token `"newtok"`. -/
theorem refresh_deduplicated_under_concurrency_witness :
    (1 : Nat) ≤ 3
    ∧ (runRefreshTriggers "newtok" idleRefreshState 3).1.networkCalls = 1
    ∧ (runRefreshTriggers "newtok" idleRefreshState 3).2
        = List.replicate 3 "newtok" :=
  ⟨by decide,
   (refresh_deduplicated_under_concurrency "newtok" 3 (by decide)).1,
   (refresh_deduplicated_under_concurrency "newtok" 3 (by decide)).2⟩
